import Mathlib

/-!
Verification of the HeyGen proxy orchestration pipeline of PodGen-AI.

The repository ships three variants of the same proxy:
* `ProxyUrl`  — the Vercel function taking `{imageBase64, audioUrl}` (no staging);
* `ProxyBlob` — the Vercel function taking `{imageBase64, audioBase64}`, staging
  the audio on Vercel Blob and cleaning it up in a `finally` block;
* `ProxySupabase` — the Supabase edge function taking
  `{imageBase64, audioUrl, apiKey}`.

All three share a textually identical polling helper `pollVideoStatus`, which we
embed once.  Network effects are modelled by an explicit environment (the
responses the outside world would give to each call) and an explicit trace of
the network calls issued; JavaScript falsy checks on strings (`!s`,
`a || b`) are modelled by comparison with the empty string, and a thrown
exception by the error branch of the result type.
-/

/-- Models the JavaScript expression `a || b` for `a : string | undefined`:
`undefined` and the empty string are falsy. -/
def strFalsyOr (a : Option String) (b : String) : String :=
  match a with
  | none => b
  | some s => if s = "" then b else s

/-- Parsed body `data.data` of a 2xx response of `GET /video_status.get`:
`status`, `video_url` and `error?.message`. -/
structure StatusOkBody where
  status : String
  video_url : String
  errMessage : Option String
  deriving DecidableEq, Repr

/-- Outcome of one status-check `fetch`: a 2xx response with a parsed body, or
a non-2xx response carrying `errorBody.message` and `response.statusText`. -/
inductive StatusResp where
  | ok (body : StatusOkBody)
  | notOk (bodyMessage : Option String) (statusText : String)
  deriving DecidableEq, Repr

/-- Result of `pollVideoStatus`: the returned URL, or one of the three throw
sites (status-check failure, provider-reported job failure, timeout). -/
inductive PollResult where
  | success (videoUrl : String)
  | statusCheckError (message : String)
  | jobFailed (message : String)
  | timedOut
  deriving DecidableEq, Repr

/-- `maxAttempts = 30` from `pollVideoStatus`. -/
def maxAttempts : Nat := 30

/-- The message of the status-check throw:
`HeyGen status check failed: ${errorBody.message || response.statusText}`. -/
def statusCheckFailedMessage (bodyMessage : Option String) (statusText : String) : String :=
  "HeyGen status check failed: " ++ strFalsyOr bodyMessage statusText

/-- The message of the provider-failure throw:
`HeyGen video generation failed: ${data.data.error?.message || 'Unknown error'}`. -/
def jobFailedMessage (errMessage : Option String) : String :=
  "HeyGen video generation failed: " ++ strFalsyOr errMessage "Unknown error"

/-- The message of the timeout throw. -/
def timedOutMessage : String := "HeyGen video generation timed out."

/-- The `while (status !== 'succeeded' && attempt < maxAttempts)` loop of
`pollVideoStatus`.  `calls` is the number of status checks already issued
(also the index of the next response), `remaining = maxAttempts - calls`.
Returns the loop outcome together with the total number of status-check calls
issued. -/
def pollAux (responses : Nat → StatusResp) : Nat → Nat → PollResult × Nat
  | calls, 0 => (PollResult.timedOut, calls)
  | calls, remaining + 1 =>
    match responses calls with
    | StatusResp.notOk bodyMessage statusText =>
        (PollResult.statusCheckError (statusCheckFailedMessage bodyMessage statusText), calls + 1)
    | StatusResp.ok body =>
        if body.status = "succeeded" then
          (PollResult.success body.video_url, calls + 1)
        else if body.status = "failed" then
          (PollResult.jobFailed (jobFailedMessage body.errMessage), calls + 1)
        else
          pollAux responses (calls + 1) remaining

/-- `pollVideoStatus`, as a function of the sequence of status-check responses
(response `i` answers the `(i+1)`-th attempt). -/
def pollVideoStatus (responses : Nat → StatusResp) : PollResult × Nat :=
  pollAux responses 0 maxAttempts

/-- A status-check response that is 2xx and neither `succeeded` nor `failed`
(the job is still processing). -/
def isNonTerminal : StatusResp → Bool
  | StatusResp.ok body => body.status ≠ "succeeded" && body.status ≠ "failed"
  | StatusResp.notOk _ _ => false

/-! ## Shared handler model -/

/-- Body of the `Response` objects the handlers build: the plain-text `'ok'`
pre-flight body, a `{error: ...}` JSON body, or the `{videoUrl: ...}` JSON
body of the success response. -/
inductive RespBody where
  | okText
  | errorJson (message : String)
  | videoJson (videoUrl : String)
  deriving DecidableEq, Repr

/-- A `Response` as far as the embedding needs it: HTTP status and body
(`new Response('ok', {headers})` defaults to status 200). -/
structure HResponse where
  status : Nat
  body : RespBody
  deriving DecidableEq, Repr

/-- The network calls a handler can issue, in issue order. -/
inductive NetCall where
  | blobPut
  | avatarCreate
  | videoGenerate
  | statusCheck
  | blobDel
  deriving DecidableEq, Repr

/-- Outcome of the avatar-creation or video-submission `fetch`: a 2xx response
whose parsed body yields the id (`data.data.avatar_id` / `data.data.video_id`),
or a non-2xx response whose text is read with `await response.text()`. -/
inductive ApiResp where
  | ok (id : String)
  | notOk (bodyText : String)
  deriving DecidableEq, Repr

/-! ## Variant `ProxyUrl`: the Vercel function taking `{imageBase64, audioUrl}` -/

namespace ProxyUrl

/-- `export const config = { maxDuration: 300 }`. -/
def config_maxDuration : Nat := 300

/-- The destructured JSON body `{ imageBase64, audioUrl }`; a missing field is
modelled by the empty string (both `undefined` and `''` are falsy in the
`!imageBase64 || !audioUrl` check). -/
structure Body where
  imageBase64 : String
  audioUrl : String
  deriving DecidableEq, Repr

/-- The inbound request: the verb and the result of `await req.json()`
(`Except.error` models a JSON parse failure carrying the exception message). -/
structure Req where
  method : String
  jsonBody : Except String Body
  deriving Repr

/-- Environment of one invocation: `process.env.HEYGEN_API_KEY` (empty string
models an unset, falsy variable) and the responses the outside world gives to
each network call. -/
structure Env where
  apiKey : String
  avatarResp : ApiResp
  videoGenResp : ApiResp
  statusResp : Nat → StatusResp

/-- The default-exported `handler` of the `audioUrl` Vercel variant, returning
the `Response` together with the trace of network calls issued. -/
def handler (env : Env) (req : Req) : HResponse × List NetCall :=
  if req.method = "OPTIONS" then
    (⟨200, RespBody.okText⟩, [])
  else if req.method ≠ "POST" then
    (⟨405, RespBody.errorJson "Method not allowed"⟩, [])
  else
    match req.jsonBody with
    | Except.error e => (⟨500, RespBody.errorJson e⟩, [])
    | Except.ok b =>
      if env.apiKey = "" then
        (⟨500, RespBody.errorJson "HeyGen API key is not configured on the server. Please set the HEYGEN_API_KEY environment variable in your Vercel project."⟩, [])
      else if b.imageBase64 = "" ∨ b.audioUrl = "" then
        (⟨400, RespBody.errorJson "Missing imageBase64 or audioUrl"⟩, [])
      else
        match env.avatarResp with
        | ApiResp.notOk t =>
            (⟨500, RespBody.errorJson ("HeyGen avatar creation failed: " ++ t)⟩,
             [NetCall.avatarCreate])
        | ApiResp.ok _avatarId =>
          match env.videoGenResp with
          | ApiResp.notOk t =>
              (⟨500, RespBody.errorJson ("HeyGen video generation failed: " ++ t)⟩,
               [NetCall.avatarCreate, NetCall.videoGenerate])
          | ApiResp.ok _videoId =>
            let pr := pollVideoStatus env.statusResp
            let calls := [NetCall.avatarCreate, NetCall.videoGenerate] ++
              List.replicate pr.2 NetCall.statusCheck
            match pr.1 with
            | PollResult.success u => (⟨200, RespBody.videoJson u⟩, calls)
            | PollResult.statusCheckError m => (⟨500, RespBody.errorJson m⟩, calls)
            | PollResult.jobFailed m => (⟨500, RespBody.errorJson m⟩, calls)
            | PollResult.timedOut => (⟨500, RespBody.errorJson timedOutMessage⟩, calls)

end ProxyUrl

/-! ## Variant `ProxyBlob`: the Vercel function staging `audioBase64` on Blob -/

namespace ProxyBlob

/-- `export const config = { maxDuration: 300 }`. -/
def config_maxDuration : Nat := 300

/-- The destructured JSON body `{ imageBase64, audioBase64 }`; a missing field
is modelled by the empty string (falsy). -/
structure Body where
  imageBase64 : String
  audioBase64 : String
  deriving DecidableEq, Repr

/-- The inbound request: verb and result of `await req.json()`. -/
structure Req where
  method : String
  jsonBody : Except String Body
  deriving Repr

/-- Environment of one invocation: the two environment variables (empty string
models unset/falsy), the outcome of the Blob `put` (the blob's `url`, or a
thrown error message), the provider responses, and the outcome of the Blob
`del` in the `finally` block (which the code swallows). -/
structure Env where
  apiKey : String
  blobToken : String
  putResp : Except String String
  avatarResp : ApiResp
  videoGenResp : ApiResp
  statusResp : Nat → StatusResp
  delResp : Except String Unit

/-- The `try` block of the handler, entered after the method checks: returns
the `Response`, the network calls issued inside the block, and the value of
the mutable `publicAudioUrl` variable when the block exits (empty string if
the upload was never reached or threw). -/
def handlerTry (env : Env) (req : Req) : HResponse × List NetCall × String :=
  match req.jsonBody with
  | Except.error e => (⟨500, RespBody.errorJson e⟩, [], "")
  | Except.ok b =>
    if env.apiKey = "" then
      (⟨500, RespBody.errorJson "HeyGen API key is not configured. Set HEYGEN_API_KEY in Vercel environment variables."⟩, [], "")
    else if env.blobToken = "" then
      (⟨500, RespBody.errorJson "Vercel Blob storage is not configured. Please enable it for your project."⟩, [], "")
    else if b.imageBase64 = "" ∨ b.audioBase64 = "" then
      (⟨400, RespBody.errorJson "Missing imageBase64 or audioBase64"⟩, [], "")
    else
      match env.putResp with
      | Except.error e => (⟨500, RespBody.errorJson e⟩, [NetCall.blobPut], "")
      | Except.ok url =>
        match env.avatarResp with
        | ApiResp.notOk t =>
            (⟨500, RespBody.errorJson ("HeyGen avatar creation failed: " ++ t)⟩,
             [NetCall.blobPut, NetCall.avatarCreate], url)
        | ApiResp.ok _avatarId =>
          match env.videoGenResp with
          | ApiResp.notOk t =>
              (⟨500, RespBody.errorJson ("HeyGen video generation failed: " ++ t)⟩,
               [NetCall.blobPut, NetCall.avatarCreate, NetCall.videoGenerate], url)
          | ApiResp.ok _videoId =>
            let pr := pollVideoStatus env.statusResp
            let calls := [NetCall.blobPut, NetCall.avatarCreate, NetCall.videoGenerate] ++
              List.replicate pr.2 NetCall.statusCheck
            match pr.1 with
            | PollResult.success u => (⟨200, RespBody.videoJson u⟩, calls, url)
            | PollResult.statusCheckError m => (⟨500, RespBody.errorJson m⟩, calls, url)
            | PollResult.jobFailed m => (⟨500, RespBody.errorJson m⟩, calls, url)
            | PollResult.timedOut => (⟨500, RespBody.errorJson timedOutMessage⟩, calls, url)

/-- The `finally` block of the handler, applied to the `try` block's outcome
`res`: it issues one `del` call iff `publicAudioUrl` (`res.2.2`) is truthy and
swallows any failure of the `del` itself
(`catch (cleanupError) { console.error(...) }`), leaving the response
unchanged either way. -/
def handlerFinally (env : Env) (res : HResponse × List NetCall × String) :
    HResponse × List NetCall :=
  if res.2.2 ≠ "" then
    match env.delResp with
    | Except.ok _ => (res.1, res.2.1 ++ [NetCall.blobDel])
    | Except.error _ => (res.1, res.2.1 ++ [NetCall.blobDel])
  else
    (res.1, res.2.1)

/-- The default-exported `handler` of the Blob Vercel variant: method checks,
then the `try` block, then the `finally` block. -/
def handler (env : Env) (req : Req) : HResponse × List NetCall :=
  if req.method = "OPTIONS" then
    (⟨200, RespBody.okText⟩, [])
  else if req.method ≠ "POST" then
    (⟨405, RespBody.errorJson "Method not allowed"⟩, [])
  else
    handlerFinally env (handlerTry env req)

end ProxyBlob

/-! ## Variant `ProxySupabase`: the Supabase edge function -/

namespace ProxySupabase

/-- The destructured JSON body `{ imageBase64, audioUrl, apiKey }` of the
Supabase variant (the API key is passed by the client); a missing field is
modelled by the empty string (falsy). -/
structure Body where
  imageBase64 : String
  audioUrl : String
  apiKey : String
  deriving DecidableEq, Repr

/-- The inbound request: verb and result of `await req.json()`. -/
structure Req where
  method : String
  jsonBody : Except String Body
  deriving Repr

/-- Environment of one invocation: the provider responses. -/
structure Env where
  avatarResp : ApiResp
  videoGenResp : ApiResp
  statusResp : Nat → StatusResp

/-- The function passed to `serve`.  After answering the `OPTIONS` pre-flight
it enters the `try` block directly: there is no `req.method !== 'POST'`
rejection in this variant. -/
def serveHandler (env : Env) (req : Req) : HResponse × List NetCall :=
  if req.method = "OPTIONS" then
    (⟨200, RespBody.okText⟩, [])
  else
    match req.jsonBody with
    | Except.error e => (⟨500, RespBody.errorJson e⟩, [])
    | Except.ok b =>
      if b.imageBase64 = "" ∨ b.audioUrl = "" ∨ b.apiKey = "" then
        (⟨400, RespBody.errorJson "Missing imageBase64, audioUrl, or apiKey"⟩, [])
      else
        match env.avatarResp with
        | ApiResp.notOk t =>
            (⟨500, RespBody.errorJson ("HeyGen avatar creation failed: " ++ t)⟩,
             [NetCall.avatarCreate])
        | ApiResp.ok _avatarId =>
          match env.videoGenResp with
          | ApiResp.notOk t =>
              (⟨500, RespBody.errorJson ("HeyGen video generation failed: " ++ t)⟩,
               [NetCall.avatarCreate, NetCall.videoGenerate])
          | ApiResp.ok _videoId =>
            let pr := pollVideoStatus env.statusResp
            let calls := [NetCall.avatarCreate, NetCall.videoGenerate] ++
              List.replicate pr.2 NetCall.statusCheck
            match pr.1 with
            | PollResult.success u => (⟨200, RespBody.videoJson u⟩, calls)
            | PollResult.statusCheckError m => (⟨500, RespBody.errorJson m⟩, calls)
            | PollResult.jobFailed m => (⟨500, RespBody.errorJson m⟩, calls)
            | PollResult.timedOut => (⟨500, RespBody.errorJson timedOutMessage⟩, calls)

end ProxySupabase

/-- The fixed inter-poll sleep of `pollVideoStatus`,
`setTimeout(resolve, 10000)`, in seconds. -/
def pollIntervalSeconds : Nat := 10

/-! ## Concrete data used to exercise the theorems -/

/-- A still-processing status body. -/
def bodyProcessing : StatusOkBody := ⟨"processing", "", none⟩

/-- A provider that never reaches a terminal state. -/
def respAllProcessing : Nat → StatusResp := fun _ => StatusResp.ok bodyProcessing

/-- A provider that reports `failed` on the second status check. -/
def respFailAt2 : Nat → StatusResp := fun n =>
  if n = 0 then StatusResp.ok bodyProcessing
  else StatusResp.ok ⟨"failed", "", some "render error"⟩

/-- A provider whose second status check itself returns non-2xx. -/
def respHttpErrAt2 : Nat → StatusResp := fun n =>
  if n = 0 then StatusResp.ok bodyProcessing
  else StatusResp.notOk (some "server exploded") "Internal Server Error"

/-- A provider that reports `processing, processing, succeeded` with a result
URL on the third check. -/
def respSucceedAt3 : Nat → StatusResp := fun n =>
  if n < 2 then StatusResp.ok bodyProcessing
  else StatusResp.ok ⟨"succeeded", "https://cdn/out.mp4", none⟩

/-- A fully configured environment for the `audioUrl` Vercel variant whose
provider succeeds on the third status check. -/
def urlEnvOk : ProxyUrl.Env :=
  ⟨"key", ApiResp.ok "avatar_42", ApiResp.ok "job_7", respSucceedAt3⟩

/-- The same environment with the avatar-creation call answering non-2xx with
body `invalid image`. -/
def urlEnvAvatarFail : ProxyUrl.Env :=
  ⟨"key", ApiResp.notOk "invalid image", ApiResp.ok "job_7", respAllProcessing⟩

/-- A well-formed `POST` request for the `audioUrl` variant. -/
def urlReqOk : ProxyUrl.Req := ⟨"POST", Except.ok ⟨"IMG", "https://store/a.wav"⟩⟩

/-- A `POST` request for the `audioUrl` variant missing its image. -/
def urlReqMissing : ProxyUrl.Req := ⟨"POST", Except.ok ⟨"", "https://store/a.wav"⟩⟩

/-- A fully configured environment for the Blob Vercel variant: staging yields
`https://store/ex1.wav`, the provider succeeds on the third status check, and
the cleanup `del` succeeds. -/
def blobEnvOk : ProxyBlob.Env :=
  ⟨"key", "blobtok", Except.ok "https://store/ex1.wav", ApiResp.ok "avatar_42",
   ApiResp.ok "job_7", respSucceedAt3, Except.ok ()⟩

/-- A well-formed `POST` request for the Blob variant. -/
def blobReqOk : ProxyBlob.Req := ⟨"POST", Except.ok ⟨"IMG", "AUD"⟩⟩

/-- A `POST` request for the Blob variant missing its audio. -/
def blobReqMissing : ProxyBlob.Req := ⟨"POST", Except.ok ⟨"IMG", ""⟩⟩

/-- A Blob-variant environment with no `HEYGEN_API_KEY` configured. -/
def blobEnvNoKey : ProxyBlob.Env :=
  ⟨"", "blobtok", Except.ok "https://store/ex1.wav", ApiResp.ok "avatar_42",
   ApiResp.ok "job_7", respAllProcessing, Except.ok ()⟩

/-- An environment for the Supabase variant. -/
def supaEnv : ProxySupabase.Env := ⟨ApiResp.ok "avatar_42", ApiResp.ok "job_7", respAllProcessing⟩

/-- A `GET` request (with an empty parsed body) sent to the Supabase variant. -/
def supaReqGet : ProxySupabase.Req := ⟨"GET", Except.ok ⟨"", "", ""⟩⟩

/-! ## Poller lemmas -/

lemma pollAux_skip (responses : Nat → StatusResp) :
    ∀ (k start remaining : Nat), k ≤ remaining →
    (∀ j, j < k → isNonTerminal (responses (start + j)) = true) →
    pollAux responses start remaining = pollAux responses (start + k) (remaining - k) := by
  intro k
  induction k with
  | zero => intro start remaining _ _; simp
  | succ k ih =>
    intro start remaining hk hnt
    obtain ⟨r, rfl⟩ : ∃ r, remaining = r + 1 := ⟨remaining - 1, by omega⟩
    have h0 : isNonTerminal (responses start) = true := by
      have := hnt 0 (Nat.succ_pos k)
      simpa using this
    cases hresp : responses start with
    | notOk m st => rw [hresp] at h0; simp [isNonTerminal] at h0
    | ok body =>
      rw [hresp] at h0
      simp [isNonTerminal] at h0
      have step : pollAux responses start (r + 1) = pollAux responses (start + 1) r := by
        simp [pollAux, hresp, h0.1, h0.2]
      rw [step, ih (start + 1) r (by omega)]
      · congr 1 <;> omega
      · intro j hj
        have := hnt (j + 1) (by omega)
        simpa [Nat.add_assoc, Nat.add_comm 1 j] using this

lemma pollAux_one_step (responses : Nat → StatusResp) (calls r : Nat) :
    pollAux responses calls (r + 1) =
      match responses calls with
      | StatusResp.notOk m st =>
          (PollResult.statusCheckError (statusCheckFailedMessage m st), calls + 1)
      | StatusResp.ok body =>
          if body.status = "succeeded" then
            (PollResult.success body.video_url, calls + 1)
          else if body.status = "failed" then
            (PollResult.jobFailed (jobFailedMessage body.errMessage), calls + 1)
          else
            pollAux responses (calls + 1) r := rfl

/-- If the first `k` responses are non-terminal and the `(k+1)`-th parses to
`succeeded`, the poller returns that response's `video_url` after exactly
`k + 1` status checks. -/
lemma pollVideoStatus_success (responses : Nat → StatusResp) (k : Nat) (body : StatusOkBody)
    (hk : k < maxAttempts)
    (hnt : ∀ j, j < k → isNonTerminal (responses j) = true)
    (hks : responses k = StatusResp.ok body)
    (hstat : body.status = "succeeded") :
    pollVideoStatus responses = (PollResult.success body.video_url, k + 1) := by
  unfold pollVideoStatus
  rw [pollAux_skip responses k 0 maxAttempts (by omega) (by simpa using hnt)]
  obtain ⟨r, hr⟩ : ∃ r, maxAttempts - k = r + 1 := ⟨maxAttempts - k - 1, by omega⟩
  rw [hr, pollAux_one_step]
  simp [hks, hstat]

/-- If the first `k` responses are non-terminal and the `(k+1)`-th parses to
`failed`, the poller throws the provider-failure error after exactly `k + 1`
status checks. -/
lemma pollVideoStatus_failed (responses : Nat → StatusResp) (k : Nat) (body : StatusOkBody)
    (hk : k < maxAttempts)
    (hnt : ∀ j, j < k → isNonTerminal (responses j) = true)
    (hks : responses k = StatusResp.ok body)
    (hstat : body.status = "failed") :
    pollVideoStatus responses =
      (PollResult.jobFailed (jobFailedMessage body.errMessage), k + 1) := by
  unfold pollVideoStatus
  rw [pollAux_skip responses k 0 maxAttempts (by omega) (by simpa using hnt)]
  obtain ⟨r, hr⟩ : ∃ r, maxAttempts - k = r + 1 := ⟨maxAttempts - k - 1, by omega⟩
  rw [hr, pollAux_one_step]
  simp [hks, hstat]

/-- If the first `k` responses are non-terminal and the `(k+1)`-th status-check
call is non-2xx, the poller throws the status-check error after exactly `k + 1`
status checks. -/
lemma pollVideoStatus_notOk (responses : Nat → StatusResp) (k : Nat)
    (m : Option String) (st : String)
    (hk : k < maxAttempts)
    (hnt : ∀ j, j < k → isNonTerminal (responses j) = true)
    (hks : responses k = StatusResp.notOk m st) :
    pollVideoStatus responses =
      (PollResult.statusCheckError (statusCheckFailedMessage m st), k + 1) := by
  unfold pollVideoStatus
  rw [pollAux_skip responses k 0 maxAttempts (by omega) (by simpa using hnt)]
  obtain ⟨r, hr⟩ : ∃ r, maxAttempts - k = r + 1 := ⟨maxAttempts - k - 1, by omega⟩
  rw [hr, pollAux_one_step]
  simp [hks]

/-- If every one of the first `maxAttempts` responses is non-terminal, the
poller times out after exactly `maxAttempts` status checks. -/
lemma pollVideoStatus_timeout (responses : Nat → StatusResp)
    (hnt : ∀ j, j < maxAttempts → isNonTerminal (responses j) = true) :
    pollVideoStatus responses = (PollResult.timedOut, maxAttempts) := by
  unfold pollVideoStatus
  rw [pollAux_skip responses maxAttempts 0 maxAttempts (le_refl _) (by simpa using hnt)]
  simp [pollAux]

/-! ## Claim C3, C4, C5: the poller -/

/-- Claim C3: if every status-check response parses to a non-terminal status
(never `succeeded` and never `failed`), `pollVideoStatus` issues exactly 30
status-check calls and then fails with the polling-timeout error, never
returning a URL. -/
theorem claim_C3_poll_timeout (responses : Nat → StatusResp)
    (hnt : ∀ j, j < 30 → isNonTerminal (responses j) = true) :
    pollVideoStatus responses = (PollResult.timedOut, 30) ∧
    ∀ u, (pollVideoStatus responses).1 ≠ PollResult.success u := by
  have h := pollVideoStatus_timeout responses (by simpa [maxAttempts] using hnt)
  refine ⟨by simpa [maxAttempts] using h, ?_⟩
  intro u
  rw [h]
  simp

/-- Witness for C3: a provider that always answers `processing`. -/
theorem claim_C3_poll_timeout_witness :
    (∀ j, j < 30 → isNonTerminal (respAllProcessing j) = true) ∧
    pollVideoStatus respAllProcessing = (PollResult.timedOut, 30) :=
  ⟨by decide, (claim_C3_poll_timeout respAllProcessing (by decide)).1⟩

/-- Claim C4: for every attempt k with 1 ≤ k ≤ 30, if the k-th status-check
response parses to status `failed`, the poller stops after exactly k calls
(issues no attempt k+1) and fails with the provider-job-failed error carrying
the provider's error message. -/
theorem claim_C4_poll_provider_failed (responses : Nat → StatusResp)
    (k : Nat) (body : StatusOkBody) (m : String)
    (hk1 : 1 ≤ k) (hk30 : k ≤ 30)
    (hnt : ∀ j, j < k - 1 → isNonTerminal (responses j) = true)
    (hks : responses (k - 1) = StatusResp.ok body)
    (hstat : body.status = "failed")
    (hmsg : body.errMessage = some m) (hm : m ≠ "") :
    pollVideoStatus responses =
      (PollResult.jobFailed ("HeyGen video generation failed: " ++ m), k) := by
  have h := pollVideoStatus_failed responses (k - 1) body
    (by simp [maxAttempts]; omega) hnt hks hstat
  have hk : k - 1 + 1 = k := by omega
  rw [hk] at h
  rw [h, jobFailedMessage, hmsg]
  simp [strFalsyOr, hm]

/-- Witness for C4: the provider reports `failed` on the second check. -/
theorem claim_C4_poll_provider_failed_witness :
    respFailAt2 1 = StatusResp.ok ⟨"failed", "", some "render error"⟩ ∧
    pollVideoStatus respFailAt2 =
      (PollResult.jobFailed ("HeyGen video generation failed: " ++ "render error"), 2) :=
  ⟨by decide,
   claim_C4_poll_provider_failed respFailAt2 2 ⟨"failed", "", some "render error"⟩
     "render error" (by decide) (by decide) (by decide) (by decide) (by decide)
     (by decide) (by decide)⟩

/-- Claim C5: if the (k+1)-th status-check call itself fails (non-2xx), the
poller fails immediately with the status-check error after exactly k+1 calls,
issuing no further status-check calls; transport failures against the status
endpoint are never retried. -/
theorem claim_C5_poll_status_check_error (responses : Nat → StatusResp)
    (k : Nat) (m : Option String) (st : String)
    (hk : k < 30)
    (hnt : ∀ j, j < k → isNonTerminal (responses j) = true)
    (hks : responses k = StatusResp.notOk m st) :
    pollVideoStatus responses =
      (PollResult.statusCheckError (statusCheckFailedMessage m st), k + 1) :=
  pollVideoStatus_notOk responses k m st (by simpa [maxAttempts] using hk) hnt hks

/-- Witness for C5: the second status-check call returns non-2xx. -/
theorem claim_C5_poll_status_check_error_witness :
    respHttpErrAt2 1 = StatusResp.notOk (some "server exploded") "Internal Server Error" ∧
    pollVideoStatus respHttpErrAt2 =
      (PollResult.statusCheckError
        (statusCheckFailedMessage (some "server exploded") "Internal Server Error"), 2) :=
  ⟨by decide,
   claim_C5_poll_status_check_error respHttpErrAt2 1 (some "server exploded")
     "Internal Server Error" (by decide) (by decide) (by decide)⟩

/-! ## Claim C9: maxDuration versus the polling budget -/

/-- Counterexample to C9 as stated: the configured `maxDuration` (300 s) does
NOT strictly exceed `maxAttempts × pollIntervalSeconds` (30 × 10 = 300 s);
the two are equal. -/
theorem claim_C9_counterexample :
    ¬ (ProxyUrl.config_maxDuration > maxAttempts * pollIntervalSeconds) := by
  decide

/-- Claim C9 (amended): the configured maximum wall-clock duration equals the
poll ceiling times the poll interval — `maxDuration` (300 s) =
`maxAttempts` (30) × interval (10 s), in both Vercel variants — rather than
strictly exceeding it. -/
theorem claim_C9_amended :
    ProxyUrl.config_maxDuration = maxAttempts * pollIntervalSeconds ∧
    ProxyBlob.config_maxDuration = maxAttempts * pollIntervalSeconds := by
  decide

/-! ## Claim C6: missing input fails fast with zero network calls -/

/-- Claim C6: in a configured deployment, every `POST` request whose parsed
body is missing the host image or the audio input is answered with the
validation error (HTTP 400, `Missing imageBase64 or audio...`) and zero
network calls — no staging upload, no avatar creation, no video submission,
no status check — in both Vercel variants. -/
theorem claim_C6_validation_no_network :
    (∀ (env : ProxyUrl.Env) (req : ProxyUrl.Req) (b : ProxyUrl.Body),
      req.method = "POST" → req.jsonBody = Except.ok b →
      env.apiKey ≠ "" →
      (b.imageBase64 = "" ∨ b.audioUrl = "") →
      ProxyUrl.handler env req =
        (⟨400, RespBody.errorJson "Missing imageBase64 or audioUrl"⟩, [])) ∧
    (∀ (env : ProxyBlob.Env) (req : ProxyBlob.Req) (b : ProxyBlob.Body),
      req.method = "POST" → req.jsonBody = Except.ok b →
      env.apiKey ≠ "" → env.blobToken ≠ "" →
      (b.imageBase64 = "" ∨ b.audioBase64 = "") →
      ProxyBlob.handler env req =
        (⟨400, RespBody.errorJson "Missing imageBase64 or audioBase64"⟩, [])) := by
  constructor
  · intro env req b hm hj hkey hmiss
    simp [ProxyUrl.handler, hm, hj, hkey, hmiss]
  · intro env req b hm hj hkey htok hmiss
    simp [ProxyBlob.handler, ProxyBlob.handlerTry, ProxyBlob.handlerFinally,
      hm, hj, hkey, htok, hmiss]

/-- Witness for C6: concrete missing-image and missing-audio requests. -/
theorem claim_C6_validation_no_network_witness :
    ProxyUrl.handler urlEnvOk urlReqMissing =
      (⟨400, RespBody.errorJson "Missing imageBase64 or audioUrl"⟩, []) ∧
    ProxyBlob.handler blobEnvOk blobReqMissing =
      (⟨400, RespBody.errorJson "Missing imageBase64 or audioBase64"⟩, []) :=
  ⟨claim_C6_validation_no_network.1 urlEnvOk urlReqMissing ⟨"", "https://store/a.wav"⟩
      rfl rfl (by decide) (Or.inl rfl),
   claim_C6_validation_no_network.2 blobEnvOk blobReqMissing ⟨"IMG", ""⟩
      rfl rfl (by decide) (by decide) (Or.inr rfl)⟩

/-! ## Claim C7: avatar-creation failure aborts with no further calls -/

/-- Claim C7: if (audio given as a pre-existing URL, i.e. the `audioUrl`
variant) the avatar-creation call answers non-2xx with body `invalid image`,
the handler fails (HTTP 500) with an error containing `invalid image`, no
video-submission, status-check or deletion call occurs. -/
theorem claim_C7_avatar_failure (env : ProxyUrl.Env) (req : ProxyUrl.Req)
    (b : ProxyUrl.Body)
    (hm : req.method = "POST") (hj : req.jsonBody = Except.ok b)
    (hkey : env.apiKey ≠ "")
    (himg : b.imageBase64 ≠ "") (haud : b.audioUrl ≠ "")
    (havatar : env.avatarResp = ApiResp.notOk "invalid image") :
    ProxyUrl.handler env req =
      (⟨500, RespBody.errorJson ("HeyGen avatar creation failed: " ++ "invalid image")⟩,
       [NetCall.avatarCreate]) ∧
    NetCall.videoGenerate ∉ (ProxyUrl.handler env req).2 ∧
    NetCall.statusCheck ∉ (ProxyUrl.handler env req).2 ∧
    NetCall.blobDel ∉ (ProxyUrl.handler env req).2 := by
  have h : ProxyUrl.handler env req =
      (⟨500, RespBody.errorJson ("HeyGen avatar creation failed: " ++ "invalid image")⟩,
       [NetCall.avatarCreate]) := by
    simp [ProxyUrl.handler, hm, hj, hkey, himg, haud, havatar]
  refine ⟨h, ?_, ?_, ?_⟩ <;> rw [h] <;> simp

/-- Witness for C7: avatar creation answers non-2xx `invalid image`. -/
theorem claim_C7_avatar_failure_witness :
    ProxyUrl.handler urlEnvAvatarFail urlReqOk =
      (⟨500, RespBody.errorJson ("HeyGen avatar creation failed: " ++ "invalid image")⟩,
       [NetCall.avatarCreate]) ∧
    NetCall.videoGenerate ∉ (ProxyUrl.handler urlEnvAvatarFail urlReqOk).2 :=
  have h := claim_C7_avatar_failure urlEnvAvatarFail urlReqOk ⟨"IMG", "https://store/a.wav"⟩
    rfl rfl (by decide) (by decide) (by decide) rfl
  ⟨h.1, h.2.1⟩

/-! ## Claim C10: configuration checks precede input validation -/

/-- Claim C10: in the Blob variant, configuration checks take precedence over
input validation: a `POST` request arriving while `HEYGEN_API_KEY` or the blob
token is absent is answered with the HTTP 500 configuration error and zero
network calls, even if the body is also missing `imageBase64`/`audioBase64`;
the HTTP 400 missing-input error is only ever returned when both pieces of
configuration are present. -/
theorem claim_C10_config_precedence (env : ProxyBlob.Env) (req : ProxyBlob.Req)
    (b : ProxyBlob.Body)
    (hm : req.method = "POST") (hj : req.jsonBody = Except.ok b) :
    (env.apiKey = "" →
      ProxyBlob.handler env req =
        (⟨500, RespBody.errorJson "HeyGen API key is not configured. Set HEYGEN_API_KEY in Vercel environment variables."⟩, [])) ∧
    (env.apiKey ≠ "" → env.blobToken = "" →
      ProxyBlob.handler env req =
        (⟨500, RespBody.errorJson "Vercel Blob storage is not configured. Please enable it for your project."⟩, [])) ∧
    ((ProxyBlob.handler env req).1.status = 400 →
      env.apiKey ≠ "" ∧ env.blobToken ≠ "") := by
  refine ⟨?_, ?_, ?_⟩
  · intro hkey
    simp [ProxyBlob.handler, ProxyBlob.handlerTry, ProxyBlob.handlerFinally, hm, hj, hkey]
  · intro hkey htok
    simp [ProxyBlob.handler, ProxyBlob.handlerTry, ProxyBlob.handlerFinally,
      hm, hj, hkey, htok]
  · intro h400
    by_cases hkey : env.apiKey = ""
    · simp [ProxyBlob.handler, ProxyBlob.handlerTry, ProxyBlob.handlerFinally,
        hm, hj, hkey] at h400
    · by_cases htok : env.blobToken = ""
      · simp [ProxyBlob.handler, ProxyBlob.handlerTry, ProxyBlob.handlerFinally,
          hm, hj, hkey, htok] at h400
      · exact ⟨hkey, htok⟩

/-- Witness for C10: a request missing both inputs still gets the HTTP 500
configuration error when `HEYGEN_API_KEY` is unset. -/
theorem claim_C10_config_precedence_witness :
    ProxyBlob.handler blobEnvNoKey blobReqMissing =
      (⟨500, RespBody.errorJson "HeyGen API key is not configured. Set HEYGEN_API_KEY in Vercel environment variables."⟩, []) :=
  (claim_C10_config_precedence blobEnvNoKey blobReqMissing ⟨"IMG", ""⟩ rfl rfl).1 rfl

/-! ## Claim C8: pre-flight and verb rejection across the variants -/

/-- Counterexample to C8 as stated: the Supabase variant does not reject
non-`POST` verbs.  A concrete `GET` request is answered with the HTTP 400
missing-fields response — it is processed as a submission, not rejected with
the method-not-allowed error. -/
theorem claim_C8_counterexample :
    ProxySupabase.serveHandler supaEnv supaReqGet =
      (⟨400, RespBody.errorJson "Missing imageBase64, audioUrl, or apiKey"⟩, []) ∧
    (ProxySupabase.serveHandler supaEnv supaReqGet).1 ≠
      ⟨405, RespBody.errorJson "Method not allowed"⟩ := by
  decide

/-- Claim C8 (amended): every variant answers an `OPTIONS` pre-flight with a
no-op success response; the two Vercel variants reject every other non-`POST`
verb with the method-not-allowed error, but the Supabase variant does not — a
non-`OPTIONS`, non-`POST` request there proceeds to normal request
processing. -/
theorem claim_C8_amended :
    (∀ (env : ProxyUrl.Env) (req : ProxyUrl.Req),
      req.method = "OPTIONS" → ProxyUrl.handler env req = (⟨200, RespBody.okText⟩, [])) ∧
    (∀ (env : ProxyUrl.Env) (req : ProxyUrl.Req),
      req.method ≠ "OPTIONS" → req.method ≠ "POST" →
      ProxyUrl.handler env req = (⟨405, RespBody.errorJson "Method not allowed"⟩, [])) ∧
    (∀ (env : ProxyBlob.Env) (req : ProxyBlob.Req),
      req.method = "OPTIONS" → ProxyBlob.handler env req = (⟨200, RespBody.okText⟩, [])) ∧
    (∀ (env : ProxyBlob.Env) (req : ProxyBlob.Req),
      req.method ≠ "OPTIONS" → req.method ≠ "POST" →
      ProxyBlob.handler env req = (⟨405, RespBody.errorJson "Method not allowed"⟩, [])) ∧
    (∀ (env : ProxySupabase.Env) (req : ProxySupabase.Req),
      req.method = "OPTIONS" →
      ProxySupabase.serveHandler env req = (⟨200, RespBody.okText⟩, [])) := by
  refine ⟨?_, ?_, ?_, ?_, ?_⟩
  · intro env req hm; simp [ProxyUrl.handler, hm]
  · intro env req hno hnp; simp [ProxyUrl.handler, hno, hnp]
  · intro env req hm; simp [ProxyBlob.handler, hm]
  · intro env req hno hnp; simp [ProxyBlob.handler, hno, hnp]
  · intro env req hm; simp [ProxySupabase.serveHandler, hm]

/-- Witness for the amended C8: concrete `OPTIONS` and `DELETE` requests. -/
theorem claim_C8_amended_witness :
    ProxyUrl.handler urlEnvOk ⟨"OPTIONS", Except.error "no body"⟩ =
      (⟨200, RespBody.okText⟩, []) ∧
    ProxyUrl.handler urlEnvOk ⟨"DELETE", Except.error "no body"⟩ =
      (⟨405, RespBody.errorJson "Method not allowed"⟩, []) ∧
    ProxyBlob.handler blobEnvOk ⟨"OPTIONS", Except.error "no body"⟩ =
      (⟨200, RespBody.okText⟩, []) ∧
    ProxyBlob.handler blobEnvOk ⟨"DELETE", Except.error "no body"⟩ =
      (⟨405, RespBody.errorJson "Method not allowed"⟩, []) ∧
    ProxySupabase.serveHandler supaEnv ⟨"OPTIONS", Except.error "no body"⟩ =
      (⟨200, RespBody.okText⟩, []) :=
  ⟨claim_C8_amended.1 urlEnvOk ⟨"OPTIONS", Except.error "no body"⟩ rfl,
   claim_C8_amended.2.1 urlEnvOk ⟨"DELETE", Except.error "no body"⟩ (by decide) (by decide),
   claim_C8_amended.2.2.1 blobEnvOk ⟨"OPTIONS", Except.error "no body"⟩ rfl,
   claim_C8_amended.2.2.2.1 blobEnvOk ⟨"DELETE", Except.error "no body"⟩ (by decide) (by decide),
   claim_C8_amended.2.2.2.2 supaEnv ⟨"OPTIONS", Except.error "no body"⟩ rfl⟩

/-! ## Blob-variant helper lemmas -/

/-- The `try` block never issues a deletion call: cleanup lives only in the
`finally` block. -/
lemma handlerTry_no_del (env : ProxyBlob.Env) (req : ProxyBlob.Req) :
    NetCall.blobDel ∉ (ProxyBlob.handlerTry env req).2.1 := by
  rcases req with ⟨m, jb⟩
  rcases env with ⟨k, t, p, a, v, s, d⟩
  rcases jb with e | b
  · simp [ProxyBlob.handlerTry]
  · simp only [ProxyBlob.handlerTry]
    by_cases hk : k = "" <;> simp only [hk, if_true, if_false, ite_true, ite_false] <;>
      [skip; skip]
    · simp
    · by_cases ht : t = ""
      · simp [ht]
      · by_cases hmiss : b.imageBase64 = "" ∨ b.audioBase64 = ""
        · simp [ht, hmiss]
        · rcases p with e | url
          · simp [ht, hmiss]
          · rcases a with aid | t1
            · rcases v with vid | t2
              · rcases hpr : pollVideoStatus s with ⟨r, n⟩
                rcases r <;> simp [ht, hmiss, hpr, List.mem_replicate]
              · simp [ht, hmiss]
            · simp [ht, hmiss]

/-- If staging succeeded with URL `url`, the `publicAudioUrl` variable holds
`url` when the `try` block exits, whatever happens afterwards. -/
lemma handlerTry_staged_url (env : ProxyBlob.Env) (req : ProxyBlob.Req)
    (b : ProxyBlob.Body) (url : String)
    (hj : req.jsonBody = Except.ok b)
    (hkey : env.apiKey ≠ "") (htok : env.blobToken ≠ "")
    (himg : b.imageBase64 ≠ "") (haud : b.audioBase64 ≠ "")
    (hput : env.putResp = Except.ok url) :
    (ProxyBlob.handlerTry env req).2.2 = url := by
  simp only [ProxyBlob.handlerTry, hj]
  rw [if_neg hkey, if_neg htok, if_neg (by simp [himg, haud]), hput]
  rcases hav : env.avatarResp with aid | t1
  · rcases hvg : env.videoGenResp with vid | t2
    · rcases hpr : pollVideoStatus env.statusResp with ⟨r, n⟩
      rcases r <;> simp [hpr]
    · simp
  · simp

/-- The `finally` block never changes the response component. -/
lemma handlerFinally_resp (env : ProxyBlob.Env) (res : HResponse × List NetCall × String) :
    (ProxyBlob.handlerFinally env res).1 = res.1 := by
  unfold ProxyBlob.handlerFinally
  rcases hdel : env.delResp with e | u <;> by_cases hu : res.2.2 = "" <;> simp [hdel, hu]

/-- For a `POST` request the response is exactly the `try` block's response:
the `finally` cleanup never changes it, whatever `del` does. -/
lemma handler_resp_eq_try (env : ProxyBlob.Env) (req : ProxyBlob.Req)
    (hm : req.method = "POST") :
    (ProxyBlob.handler env req).1 = (ProxyBlob.handlerTry env req).1 := by
  simp only [ProxyBlob.handler, hm]
  rw [if_neg (by decide : ¬ ("POST" : String) = "OPTIONS"),
    if_neg (by simp : ¬ ("POST" : String) ≠ "POST")]
  exact handlerFinally_resp env _

/-! ## Claim C1: provider success yields the video URL -/

/-- Claim C1: for every valid, fully configured request of the Blob variant
whose provider reports `succeeded` on status check k+1 ≤ 30 with a non-empty
`video_url`, the handler answers HTTP 200 carrying that non-empty URL. -/
theorem claim_C1_success_returns_url (env : ProxyBlob.Env) (req : ProxyBlob.Req)
    (b : ProxyBlob.Body) (url aid vid : String) (k : Nat) (body : StatusOkBody)
    (hm : req.method = "POST") (hj : req.jsonBody = Except.ok b)
    (hkey : env.apiKey ≠ "") (htok : env.blobToken ≠ "")
    (himg : b.imageBase64 ≠ "") (haud : b.audioBase64 ≠ "")
    (hput : env.putResp = Except.ok url)
    (hav : env.avatarResp = ApiResp.ok aid)
    (hvg : env.videoGenResp = ApiResp.ok vid)
    (hk : k < 30)
    (hnt : ∀ j, j < k → isNonTerminal (env.statusResp j) = true)
    (hks : env.statusResp k = StatusResp.ok body)
    (hstat : body.status = "succeeded")
    (hurl : body.video_url ≠ "") :
    (ProxyBlob.handler env req).1 = ⟨200, RespBody.videoJson body.video_url⟩ ∧
    body.video_url ≠ "" := by
  have hpoll : pollVideoStatus env.statusResp = (PollResult.success body.video_url, k + 1) :=
    pollVideoStatus_success env.statusResp k body (by simpa [maxAttempts] using hk) hnt hks hstat
  refine ⟨?_, hurl⟩
  rw [handler_resp_eq_try env req hm]
  simp only [ProxyBlob.handlerTry, hj]
  rw [if_neg hkey, if_neg htok, if_neg (by simp [himg, haud]), hput, hav, hvg]
  simp [hpoll]

/-- Witness for C1: `processing, processing, succeeded` with
`video_url = https://cdn/out.mp4`. -/
theorem claim_C1_success_returns_url_witness :
    (∀ j, j < 2 → isNonTerminal (respSucceedAt3 j) = true) ∧
    (ProxyBlob.handler blobEnvOk blobReqOk).1 =
      ⟨200, RespBody.videoJson "https://cdn/out.mp4"⟩ :=
  ⟨by decide,
   (claim_C1_success_returns_url blobEnvOk blobReqOk ⟨"IMG", "AUD"⟩
      "https://store/ex1.wav" "avatar_42" "job_7" 2
      ⟨"succeeded", "https://cdn/out.mp4", none⟩
      rfl rfl (by decide) (by decide) (by decide) (by decide) rfl rfl rfl
      (by decide) (by decide) (by decide) (by decide) (by decide)).1⟩

/-! ## Claim C2: exactly one cleanup attempt, never escalated -/

/-- Claim C2: in the Blob variant, whenever the staging upload succeeds (a
staged asset with a non-empty URL is created), exactly one deletion call is
issued before the handler returns, on every exit path (whatever the avatar,
submission and polling steps answer); and the deletion's own outcome never
reaches the caller — for any outcome of `del`, the response is exactly the
`try` block's response (primary result or original error). -/
theorem claim_C2_cleanup_exactly_once (env : ProxyBlob.Env) (req : ProxyBlob.Req)
    (b : ProxyBlob.Body) (url : String)
    (hm : req.method = "POST") (hj : req.jsonBody = Except.ok b)
    (hkey : env.apiKey ≠ "") (htok : env.blobToken ≠ "")
    (himg : b.imageBase64 ≠ "") (haud : b.audioBase64 ≠ "")
    (hput : env.putResp = Except.ok url) (hurl : url ≠ "") :
    ((ProxyBlob.handler env req).2).count NetCall.blobDel = 1 ∧
    (∀ d, (ProxyBlob.handler {env with delResp := d} req).1 =
      (ProxyBlob.handlerTry env req).1) := by
  have hstage : (ProxyBlob.handlerTry env req).2.2 = url :=
    handlerTry_staged_url env req b url hj hkey htok himg haud hput
  constructor
  · simp only [ProxyBlob.handler, hm]
    rw [if_neg (by decide : ¬ ("POST" : String) = "OPTIONS"),
      if_neg (by simp : ¬ ("POST" : String) ≠ "POST")]
    unfold ProxyBlob.handlerFinally
    rw [if_pos (by rw [hstage]; exact hurl)]
    rcases hdel : env.delResp with e | u <;>
      simp only [hdel] <;>
      rw [List.count_append, List.count_eq_zero.mpr (handlerTry_no_del env req)] <;>
      decide
  · intro d
    exact handler_resp_eq_try {env with delResp := d} req hm

/-- Witness for C2: the concrete success run stages `https://store/ex1.wav`
and deletes it exactly once; with a failing `del` the response is unchanged. -/
theorem claim_C2_cleanup_exactly_once_witness :
    ((ProxyBlob.handler blobEnvOk blobReqOk).2).count NetCall.blobDel = 1 ∧
    (ProxyBlob.handler {blobEnvOk with delResp := Except.error "del failed"} blobReqOk).1 =
      (ProxyBlob.handlerTry blobEnvOk blobReqOk).1 :=
  have h := claim_C2_cleanup_exactly_once blobEnvOk blobReqOk ⟨"IMG", "AUD"⟩
    "https://store/ex1.wav" rfl rfl (by decide) (by decide) (by decide) (by decide)
    rfl (by decide)
  ⟨h.1, h.2 (Except.error "del failed")⟩
